import Mathlib

/-!
Shallow embedding of `src/cards/stats-card.js` from the github-readme-stats
repository, together with theorems settling the specification claims about
the stats-card renderer.

Modelling conventions:
* JavaScript numbers are modelled as `ℚ` (the card layout arithmetic uses
  only +, −, ×, /2 and comparisons on small values, which are exact).
* `Math.PI` is an irrational constant; every definition that multiplies by it
  takes the value of `Math.PI` as an explicit parameter `pi : ℚ`, and the
  theorems hold for every nonnegative value of that parameter.
* External collaborators that live outside `src/` (the i18n lookup, the text
  measurer `measureText`, the compact number formatter `kFormatter`, the icon
  glyph table and `Number.prototype.toFixed`) are supplied as components of an
  `Externals` record; the spec declares them out of scope.
* A render produces a `RenderResult` record holding every computed quantity
  (rows, width, height, rank translation, accessibility strings); the final
  SVG serialization is delegated to the external `Card` frame component and is
  not modelled.
-/

namespace StatsCard

/-- Width constants of stats-card.js (lines 15–20). -/
def CARD_MIN_WIDTH : ℚ := 287

/-- Default width when the rank circle is hidden. -/
def CARD_DEFAULT_WIDTH : ℚ := 287

/-- Minimum width when the rank circle is shown with stat rows. -/
def RANK_CARD_MIN_WIDTH : ℚ := 420

/-- Default width when the rank circle is shown with stat rows. -/
def RANK_CARD_DEFAULT_WIDTH : ℚ := 450

/-- Minimum width in rank-only mode (no stat rows). -/
def RANK_ONLY_CARD_MIN_WIDTH : ℚ := 290

/-- Default width in rank-only mode (no stat rows). -/
def RANK_ONLY_CARD_DEFAULT_WIDTH : ℚ := 290

/-- Modelled from the spec: `CustomError` from `src/common/utils.js` (not under
`src/`); the renderer only constructs it with a message and a secondary
message, so it is a plain record of the two strings. -/
structure CustomError where
  message : String
  secondaryMessage : String
deriving DecidableEq

/-- The rank value object carried by the stats record. -/
structure Rank where
  level : String
  percentile : ℚ
deriving DecidableEq

/-- The `StatsData` input record destructured at the top of `renderStatsCard`. -/
structure StatsData where
  name : String
  totalStars : Int
  totalCommits : Int
  totalIssues : Int
  totalPRs : Int
  totalPRsMerged : Int
  mergedPRsPercentage : ℚ
  totalReviews : Int
  totalDiscussionsStarted : Int
  totalDiscussionsAnswered : Int
  contributedTo : Int
  rank : Rank
deriving DecidableEq

/-- The `card_width` option as the renderer observes it: absent (`undefined`),
a JavaScript number, or a non-numeric value (`NaN` or an unparseable string;
both land in the `defaultCardWidth` branch of the width computation). -/
inductive CardWidthOpt where
  | absent : CardWidthOpt
  | num : ℚ → CardWidthOpt
  | nan : CardWidthOpt
deriving DecidableEq

/-- The recognized options destructured from `options` in `renderStatsCard`,
with the source's default values.  Color options and `theme` are resolved by
the external `getCardColors` and do not influence layout, so they are carried
as opaque strings. -/
structure StatCardOptions where
  hide : List String := []
  show_icons : Bool := false
  hide_title : Bool := false
  hide_border : Bool := false
  card_width : CardWidthOpt := .absent
  hide_rank : Bool := false
  include_all_commits : Bool := false
  line_height : Int := 25
  title_color : Option String := none
  ring_color : Option String := none
  icon_color : Option String := none
  text_color : Option String := none
  text_bold : Bool := true
  bg_color : Option String := none
  theme : String := "default"
  custom_title : Option String := none
  border_radius : Option ℚ := none
  border_color : Option String := none
  number_format : String := "short"
  locale : Option String := none
  disable_animations : Bool := false
  rank_icon : String := "default"
  «show» : List String := []
deriving DecidableEq

/-- External collaborators used by the renderer that live outside `src/`
(the spec's §1 declares them out of scope): the locale string lookup
`i18n.t` (already closed over the user's name and apostrophe, as
`statCardLocales({name, apostrophe})` is), the pixel width estimator
`measureText`, the compact number formatter `kFormatter` (applied to the
stringified value), `Number.prototype.toFixed(2)`, the icon glyph table,
and the current calendar year read from `new Date()`. -/
structure Externals where
  tr : Option String → String → String
  measureText : String → ℚ
  kFormatter : String → String
  toFixed2 : ℚ → String
  icons : String → String
  currentYear : Nat

/-!
## Rank circle progress (stats-card.js lines 84–116)
-/

/-- Embeds `calculateCircleProgress` (lines 84–96).  `pi` stands for
`Math.PI`; the source computes `c = Math.PI * (radius * 2)` with
`radius = 40`, clamps the value into `[0, 100]` by two successive
assignments, and returns `((100 - value) / 100) * c`. -/
def calculateCircleProgress (pi : ℚ) (value : ℚ) : ℚ :=
  let radius : ℚ := 40
  let c : ℚ := pi * (radius * 2)
  let value₁ : ℚ := if value < 0 then 0 else value
  let value₂ : ℚ := if value₁ > 100 then 100 else value₁
  ((100 - value₂) / 100) * c

/-- Models `getProgressAnimation` (lines 105–116): the two
`stroke-dashoffset` values interpolated into the `rankAnimation` keyframes
block, namely `calculateCircleProgress(0)` (the `from` frame) and
`calculateCircleProgress(progress)` (the `to` frame). -/
def getProgressAnimationOffsets (pi : ℚ) (progress : ℚ) : ℚ × ℚ :=
  (calculateCircleProgress pi 0, calculateCircleProgress pi progress)

/-- Follows the spec's words: `clamp(v, 0, 100)`, the clamp of a value into
the closed interval `[0, 100]`. -/
def clamp0100 (v : ℚ) : ℚ := max 0 (min v 100)

/-!
## Statistic selection (stats-card.js lines 269–349)
-/

/-- One entry of the `STATS` metadata object: the fields passed on to
`createTextNode`.  Numeric values are carried in their stringified form (the
only non-integer value, `mergedPRsPercentage`, is stringified by the external
`toFixed(2)` before it is stored). -/
structure StatMeta where
  icon : String
  label : String
  value : String
  id : String
  unitSymbol : Option String := none
deriving DecidableEq

/-- Embeds the construction of the `STATS` object (lines 269–349).  JavaScript
object properties enumerate in insertion order, so the object is modelled as
an ordered association list; the five unconditional entries are always
present and each optional entry is inserted at its place when its key is in
`show`. -/
def buildSTATS (ext : Externals) (stats : StatsData) (opts : StatCardOptions) :
    List (String × StatMeta) :=
  let t := ext.tr opts.locale
  [("stars",
    { icon := ext.icons "star", label := t "statcard.totalstars",
      value := toString stats.totalStars, id := "stars" }),
   ("commits",
    { icon := ext.icons "commits",
      label := t "statcard.commits" ++
        (if opts.include_all_commits then ""
         else " (" ++ toString ext.currentYear ++ ")"),
      value := toString stats.totalCommits, id := "commits" }),
   ("prs",
    { icon := ext.icons "prs", label := t "statcard.prs",
      value := toString stats.totalPRs, id := "prs" })]
  ++ (if opts.«show».contains "prs_merged" then
      [("prs_merged",
        { icon := ext.icons "prs_merged", label := t "statcard.prs-merged",
          value := toString stats.totalPRsMerged, id := "prs_merged" })]
      else [])
  ++ (if opts.«show».contains "prs_merged_percentage" then
      [("prs_merged_percentage",
        { icon := ext.icons "prs_merged_percentage",
          label := t "statcard.prs-merged-percentage",
          value := ext.toFixed2 stats.mergedPRsPercentage,
          id := "prs_merged_percentage", unitSymbol := some "%" })]
      else [])
  ++ (if opts.«show».contains "reviews" then
      [("reviews",
        { icon := ext.icons "reviews", label := t "statcard.reviews",
          value := toString stats.totalReviews, id := "reviews" })]
      else [])
  ++ [("issues",
    { icon := ext.icons "issues", label := t "statcard.issues",
      value := toString stats.totalIssues, id := "issues" })]
  ++ (if opts.«show».contains "discussions_started" then
      [("discussions_started",
        { icon := ext.icons "discussions_started",
          label := t "statcard.discussions-started",
          value := toString stats.totalDiscussionsStarted,
          id := "discussions_started" })]
      else [])
  ++ (if opts.«show».contains "discussions_answered" then
      [("discussions_answered",
        { icon := ext.icons "discussions_answered",
          label := t "statcard.discussions-answered",
          value := toString stats.totalDiscussionsAnswered,
          id := "discussions_answered" })]
      else [])
  ++ [("contribs",
    { icon := ext.icons "contribs", label := t "statcard.contribs",
      value := toString stats.contributedTo, id := "contribs" })]

/-- The hide filter of line 370–371: `Object.keys(STATS).filter((key) =>
!hide.includes(key))`, kept as an association list so that each surviving
key still carries its metadata. -/
def visibleStats (ext : Externals) (stats : StatsData) (opts : StatCardOptions) :
    List (String × StatMeta) :=
  (buildSTATS ext stats opts).filter (fun kv => !(opts.hide.contains kv.1))

/-- The fixed canonical key order of the `STATS` object. -/
def canonicalStatKeys : List String :=
  ["stars", "commits", "prs", "prs_merged", "prs_merged_percentage",
   "reviews", "issues", "discussions_started", "discussions_answered",
   "contribs"]

/-- The five keys that are inserted into `STATS` unconditionally. -/
def alwaysStatKeys : List String :=
  ["stars", "commits", "prs", "issues", "contribs"]

/-!
## Row rendering (stats-card.js lines 38–76 and 351–386)
-/

/-- The parameters record of `createTextNode` (lines 22–49). -/
structure CreateTextNodeParams where
  icon : String
  label : String
  value : String
  id : String
  unitSymbol : Option String
  index : Nat
  showIcons : Bool
  shiftValuePos : ℚ
  bold : Bool
  number_format : String
deriving DecidableEq

/-- The data a rendered row (`createTextNode`'s SVG snippet, lines 62–75)
carries: the stagger delay, the icon glyph when icons are shown, the label
and its optional `x="25"` offset, the value text and its `x` position, the
testid and the bold flag. -/
structure TextNode where
  staggerDelay : ℚ
  icon : Option String
  label : String
  labelHasOffset : Bool
  valueX : ℚ
  valueText : String
  id : String
  bold : Bool
deriving DecidableEq

/-- Embeds `createTextNode` (lines 38–76): the value is compacted by the
external `kFormatter` unless `number_format` is `long`, the stagger delay is
`(index + 3) * 150`, and the value text sits at
`x = (showIcons ? 140 : 120) + shiftValuePos`. -/
def createTextNode (ext : Externals) (p : CreateTextNodeParams) : TextNode :=
  let kValue :=
    if p.number_format.toLower = "long" then p.value else ext.kFormatter p.value
  let staggerDelay : ℚ := ((p.index : ℚ) + 3) * 150
  { staggerDelay := staggerDelay
    icon := if p.showIcons then some p.icon else none
    label := p.label
    labelHasOffset := p.showIcons
    valueX := (if p.showIcons then (140 : ℚ) else 120) + p.shiftValuePos
    valueText := kValue ++ (match p.unitSymbol with
      | some u => " " ++ u
      | none => "")
    id := p.id
    bold := p.bold }

/-- The fixed allow-list of locales whose labels render long (lines 351–366). -/
def longLocales : List String :=
  ["cn", "es", "fr", "pt-br", "ru", "uk-ua", "id", "ml", "my", "pl", "de",
   "nl", "zh-tw", "uz"]

/-- Line 367: `locale ? longLocales.includes(locale) : false`. -/
def isLongLocale (locale : Option String) : Bool :=
  match locale with
  | some l => longLocales.contains l
  | none => false

/-- Embeds the `statItems` construction (lines 370–386): the visible stats in
order, each turned into a text node with its filtered index and a value
shift of `79.01 + (isLongLocale ? 50 : 0)`. -/
def statItems (ext : Externals) (stats : StatsData) (opts : StatCardOptions) :
    List TextNode :=
  (visibleStats ext stats opts).enum.map (fun ikv =>
    createTextNode ext
      { icon := ikv.2.2.icon
        label := ikv.2.2.label
        value := ikv.2.2.value
        id := ikv.2.2.id
        unitSymbol := ikv.2.2.unitSymbol
        index := ikv.1
        showIcons := opts.show_icons
        shiftValuePos :=
          (7901 / 100 : ℚ) + (if isLongLocale opts.locale then 50 else 0)
        bold := opts.text_bold
        number_format := opts.number_format })

/-!
## Sizing (stats-card.js lines 395–452)
-/

/-- Modelled from the spec: `clampValue` from `src/common/utils.js` (not under
`src/`), `Math.max(min, Math.min(number, max))`; the renderer applies it with
an `Infinity` ceiling, so it reduces to the floor clamp `max(lo, value)`. -/
def clampValue (value lo : ℚ) : ℚ := max lo value

/-- Line 428: `show_icons && statItems.length ? 16 + 1 : 0`. -/
def computeIconWidth (show_icons hasRows : Bool) : ℚ :=
  if show_icons && hasRows then 16 + 1 else 0

/-- Lines 429–438: the mode minimum width (title-dependent when the rank is
hidden, otherwise one of the two rank-mode constants), plus the icon width. -/
def computeMinCardWidth (hide_rank hasRows : Bool) (titleWidth iconWidth : ℚ) : ℚ :=
  (if hide_rank then clampValue (50 + titleWidth * 2) CARD_MIN_WIDTH
   else if hasRows then RANK_CARD_MIN_WIDTH
   else RANK_ONLY_CARD_MIN_WIDTH) + iconWidth

/-- Lines 439–444: the mode default width plus the icon width. -/
def computeDefaultCardWidth (hide_rank hasRows : Bool) (iconWidth : ℚ) : ℚ :=
  (if hide_rank then CARD_DEFAULT_WIDTH
   else if hasRows then RANK_CARD_DEFAULT_WIDTH
   else RANK_ONLY_CARD_DEFAULT_WIDTH) + iconWidth

/-- Lines 445–452: `card_width ? (isNaN(card_width) ? default : card_width)
: default`, then the floor clamp to the minimum.  A supplied `0` is falsy in
JavaScript and takes the default branch; `NaN` and non-numeric strings both
end at the default as well. -/
def computeWidth (card_width : CardWidthOpt) (defaultCardWidth minCardWidth : ℚ) : ℚ :=
  let w : ℚ :=
    match card_width with
    | .num n => if n ≠ 0 then n else defaultCardWidth
    | .nan => defaultCardWidth
    | .absent => defaultCardWidth
  if w < minCardWidth then minCardWidth else w

/-- Lines 397–400: `Math.max(45 + (statItems.length + 1) * lheight,
hide_rank ? 0 : statItems.length ? 150 : 180)`. -/
def computeHeight (n : Nat) (lheight : Int) (hide_rank : Bool) : ℚ :=
  max (45 + ((n : ℚ) + 1) * (lheight : ℚ))
    (if hide_rank then 0 else if n ≠ 0 then 150 else 180)

/-- Lines 413–421 (via the external `measureText`): the effective title whose
width is measured — the custom title when supplied and non-empty (JavaScript
truthiness), else the localized default title of the current mode. -/
def effectiveTitle (ext : Externals) (opts : StatCardOptions) (hasRows : Bool) :
    String :=
  let dflt :=
    if hasRows then ext.tr opts.locale "statcard.title"
    else ext.tr opts.locale "statcard.ranktitle"
  match opts.custom_title with
  | some t => if t = "" then dflt else t
  | none => dflt

/-!
## Rank geometry (stats-card.js lines 489–501)
-/

/-- Embeds `calculateRankXTranslation` (lines 489–501), as a function of the
quantities the closure captures: whether stat rows exist, the icon width, the
final width and the minimum card width. -/
def calculateRankXTranslation (hasRows : Bool) (iconWidth width minCardWidth : ℚ) : ℚ :=
  if hasRows then
    let minXTranslation := RANK_CARD_MIN_WIDTH + iconWidth - 70
    if width > RANK_CARD_DEFAULT_WIDTH then
      let xMaxExpansion := minXTranslation + (450 - minCardWidth) / 2
      xMaxExpansion + width - RANK_CARD_DEFAULT_WIDTH
    else
      minXTranslation + (width - minCardWidth) / 2
  else
    width / 2 + 20 - 10

/-!
## Composition (stats-card.js lines 388–545)
-/

/-- Embeds the accessibility label mapper (lines 518–528): the `commits` key
gets the fresh year-qualified phrasing, every other key joins its (already
localized) label with its value. -/
def accLabel (ext : Externals) (opts : StatCardOptions) (kv : String × StatMeta) :
    String :=
  if kv.1 = "commits" then
    ext.tr opts.locale "statcard.commits" ++ " " ++
      (if opts.include_all_commits then ""
       else "in " ++ toString ext.currentYear) ++ " : " ++ kv.2.value
  else
    kv.2.label ++ ": " ++ kv.2.value

/-- The error thrown at lines 388–393. -/
def configurationError : CustomError :=
  { message := "Could not render stats card."
    secondaryMessage := "Either stats or rank are required." }

/-- Every quantity the renderer computes and hands to the external `Card`
frame: the rendered rows, the final width and height, the rank progress, the
rank circle translation (`none` when `hide_rank` suppresses the circle), and
the accessibility title and description. -/
structure RenderResult where
  rows : List TextNode
  width : ℚ
  height : ℚ
  progress : ℚ
  rankXTranslation : Option ℚ
  accTitle : String
  accDesc : String
deriving DecidableEq

/-- The successful branch of `renderStatsCard` (lines 395–544): heights,
widths, rank geometry and accessibility strings, assembled from the helper
functions exactly as the source computes them.  The `card.title` used in the
accessibility title is modelled from the spec (the `Card` frame is an
external collaborator): custom title when non-empty, else the localized mode
default. -/
def renderResult (ext : Externals) (stats : StatsData) (opts : StatCardOptions) :
    RenderResult :=
  let items := statItems ext stats opts
  let hasRows := !items.isEmpty
  let lheight := opts.line_height
  let height := computeHeight items.length lheight opts.hide_rank
  let progress := 100 - stats.rank.percentile
  let iconWidth := computeIconWidth opts.show_icons hasRows
  let titleWidth := ext.measureText (effectiveTitle ext opts hasRows)
  let minCardWidth := computeMinCardWidth opts.hide_rank hasRows titleWidth iconWidth
  let defaultCardWidth := computeDefaultCardWidth opts.hide_rank hasRows iconWidth
  let width := computeWidth opts.card_width defaultCardWidth minCardWidth
  { rows := items
    width := width
    height := height
    progress := progress
    rankXTranslation :=
      if opts.hide_rank then none
      else some (calculateRankXTranslation hasRows iconWidth width minCardWidth)
    accTitle := effectiveTitle ext opts hasRows ++ ", Rank: " ++ stats.rank.level
    accDesc :=
      String.intercalate ", " ((visibleStats ext stats opts).map (accLabel ext opts)) }

/-- Embeds `renderStatsCard` (lines 205–545): builds the stat rows, throws
the configuration error when no row survives and the rank is hidden (lines
388–393), and otherwise produces the computed card. -/
def renderStatsCard (ext : Externals) (stats : StatsData) (opts : StatCardOptions) :
    Except CustomError RenderResult :=
  if (statItems ext stats opts).isEmpty && opts.hide_rank then
    .error configurationError
  else
    .ok (renderResult ext stats opts)

/-- The full candidate row list in canonical order, before any gating: the
entry each key would contribute to `STATS`. -/
def allStatsPairs (ext : Externals) (stats : StatsData) (opts : StatCardOptions) :
    List (String × StatMeta) :=
  let t := ext.tr opts.locale
  [("stars",
    { icon := ext.icons "star", label := t "statcard.totalstars",
      value := toString stats.totalStars, id := "stars" }),
   ("commits",
    { icon := ext.icons "commits",
      label := t "statcard.commits" ++
        (if opts.include_all_commits then ""
         else " (" ++ toString ext.currentYear ++ ")"),
      value := toString stats.totalCommits, id := "commits" }),
   ("prs",
    { icon := ext.icons "prs", label := t "statcard.prs",
      value := toString stats.totalPRs, id := "prs" }),
   ("prs_merged",
    { icon := ext.icons "prs_merged", label := t "statcard.prs-merged",
      value := toString stats.totalPRsMerged, id := "prs_merged" }),
   ("prs_merged_percentage",
    { icon := ext.icons "prs_merged_percentage",
      label := t "statcard.prs-merged-percentage",
      value := ext.toFixed2 stats.mergedPRsPercentage,
      id := "prs_merged_percentage", unitSymbol := some "%" }),
   ("reviews",
    { icon := ext.icons "reviews", label := t "statcard.reviews",
      value := toString stats.totalReviews, id := "reviews" }),
   ("issues",
    { icon := ext.icons "issues", label := t "statcard.issues",
      value := toString stats.totalIssues, id := "issues" }),
   ("discussions_started",
    { icon := ext.icons "discussions_started",
      label := t "statcard.discussions-started",
      value := toString stats.totalDiscussionsStarted,
      id := "discussions_started" }),
   ("discussions_answered",
    { icon := ext.icons "discussions_answered",
      label := t "statcard.discussions-answered",
      value := toString stats.totalDiscussionsAnswered,
      id := "discussions_answered" }),
   ("contribs",
    { icon := ext.icons "contribs", label := t "statcard.contribs",
      value := toString stats.contributedTo, id := "contribs" })]


/-!
## Concrete inputs used to evaluate the theorems
-/

/-- A concrete instantiation of the external collaborators: the i18n lookup
returns the key, the compact formatter is the identity, the measured title
width is 100 pixels and the year is 2024. -/
def ext0 : Externals :=
  { tr := fun _ k => k
    measureText := fun _ => 100
    kFormatter := fun v => v
    toFixed2 := fun _ => "50.00"
    icons := fun k => k
    currentYear := 2024 }

/-- A concrete stats record. -/
def stats0 : StatsData :=
  { name := "octocat"
    totalStars := 100
    totalCommits := 200
    totalIssues := 30
    totalPRs := 40
    totalPRsMerged := 20
    mergedPRsPercentage := 50
    totalReviews := 5
    totalDiscussionsStarted := 3
    totalDiscussionsAnswered := 2
    contributedTo := 7
    rank := { level := "A+", percentile := 40 } }

/-- Default options: five rows, rank shown. -/
def opts0 : StatCardOptions := {}

/-- Every canonical key hidden and the rank suppressed: nothing renderable. -/
def optsAllHide : StatCardOptions := { hide := canonicalStatKeys, hide_rank := true }

/-- Every canonical key hidden but the rank still shown (rank-only mode). -/
def optsAllHideNoRank : StatCardOptions := { hide := canonicalStatKeys }

/-- Three visible rows (two of the five default rows hidden), rank shown. -/
def optsH3 : StatCardOptions := { hide := ["stars", "commits"] }

/-- Six visible rows (one optional row enabled), rank shown. -/
def optsH6 : StatCardOptions := { «show» := ["prs_merged"] }

/-- One optional row enabled and one default row hidden. -/
def optsC4 : StatCardOptions := { «show» := ["reviews"], hide := ["commits"] }

/-- A requested width of 500, above the rank-mode minimum of 420. -/
def optsW500 : StatCardOptions := { card_width := .num 500 }

/-- A requested width of literal 0. -/
def optsZero : StatCardOptions := { card_width := .num 0 }

/-- A non-numeric requested width in rank-hidden mode. -/
def optsNaN : StatCardOptions := { card_width := .nan, hide_rank := true }

/-- The default options with the long-label locale `fr`. -/
def optsFr : StatCardOptions := { opts0 with locale := some "fr" }

/-- The default options with the locale `en`, not in the long-label list. -/
def optsEn : StatCardOptions := { opts0 with locale := some "en" }

/-- Externals whose title measurement is 200 pixels, so that
`50 + 2 × 200` exceeds the rank-hidden default width of 287. -/
def extWide : Externals := { ext0 with measureText := fun _ => 200 }

/-!
## Lemmas for the rank circle progress
-/

lemma calculateCircleProgress_eq_clamp (pi v : ℚ) :
    calculateCircleProgress pi v = ((100 - clamp0100 v) / 100) * (pi * (40 * 2)) := by
  simp only [calculateCircleProgress, clamp0100]
  by_cases h1 : v < 0
  · rw [if_pos h1, if_neg (by norm_num : ¬ (0:ℚ) > 100),
      min_eq_left (by linarith), max_eq_left (by linarith)]
  · rw [if_neg h1]
    by_cases h2 : v > 100
    · rw [if_pos h2, min_eq_right (by linarith), max_eq_right (by norm_num)]
    · rw [if_neg h2, min_eq_left (by linarith), max_eq_right (by linarith)]

lemma clamp0100_mem (v : ℚ) : 0 ≤ clamp0100 v ∧ clamp0100 v ≤ 100 := by
  unfold clamp0100
  constructor
  · exact le_max_left 0 _
  · rcases le_total v 100 with h | h
    · rw [min_eq_left h]
      rcases le_total 0 v with h0 | h0
      · rw [max_eq_right h0]; exact h
      · rw [max_eq_left h0]; norm_num
    · rw [min_eq_right h, max_eq_right (by norm_num)]

lemma clamp0100_mono {a b : ℚ} (h : a ≤ b) : clamp0100 a ≤ clamp0100 b :=
  max_le_max le_rfl (min_le_min h le_rfl)

lemma calculateCircleProgress_range (pi v : ℚ) (hpi : 0 ≤ pi) :
    0 ≤ calculateCircleProgress pi v ∧ calculateCircleProgress pi v ≤ pi * (40 * 2) := by
  rw [calculateCircleProgress_eq_clamp]
  obtain ⟨h0, h100⟩ := clamp0100_mem v
  have hc : (0 : ℚ) ≤ pi * (40 * 2) := by
    have : (0 : ℚ) ≤ (40 * 2 : ℚ) := by norm_num
    exact mul_nonneg hpi this
  constructor
  · apply mul_nonneg _ hc
    apply div_nonneg _ (by norm_num)
    linarith
  · have hle : (100 - clamp0100 v) / 100 ≤ 1 := by
      rw [div_le_one (by norm_num : (0:ℚ) < 100)]
      linarith
    calc ((100 - clamp0100 v) / 100) * (pi * (40 * 2))
        ≤ 1 * (pi * (40 * 2)) := by
          apply mul_le_mul_of_nonneg_right hle hc
      _ = pi * (40 * 2) := one_mul _

/-!
## Selection-order lemmas
-/

lemma buildSTATS_eq_filter (ext : Externals) (stats : StatsData)
    (opts : StatCardOptions) :
    buildSTATS ext stats opts =
      (allStatsPairs ext stats opts).filter
        (fun kv => alwaysStatKeys.contains kv.1 || opts.«show».contains kv.1) := by
  cases h1 : opts.«show».contains "prs_merged" <;>
  cases h2 : opts.«show».contains "prs_merged_percentage" <;>
  cases h3 : opts.«show».contains "reviews" <;>
  cases h4 : opts.«show».contains "discussions_started" <;>
  cases h5 : opts.«show».contains "discussions_answered" <;>
    simp_all [buildSTATS, allStatsPairs, alwaysStatKeys, List.filter_cons]

lemma map_fst_filter_key (P : String → Bool) (l : List (String × StatMeta)) :
    (l.filter (fun kv => P kv.1)).map Prod.fst = (l.map Prod.fst).filter P := by
  induction l with
  | nil => rfl
  | cons a t ih =>
    cases hP : P a.1 <;> simp [List.filter_cons, hP, ih]

lemma visibleStats_map_fst (ext : Externals) (stats : StatsData)
    (opts : StatCardOptions) :
    (visibleStats ext stats opts).map Prod.fst =
      canonicalStatKeys.filter
        (fun k => (alwaysStatKeys.contains k || opts.«show».contains k) &&
          !(opts.hide.contains k)) := by
  have h1 : (visibleStats ext stats opts) =
      (allStatsPairs ext stats opts).filter
        (fun kv => (alwaysStatKeys.contains kv.1 || opts.«show».contains kv.1) &&
          !(opts.hide.contains kv.1)) := by
    rw [visibleStats, buildSTATS_eq_filter, List.filter_filter]
    exact List.filter_congr (fun kv _ => Bool.and_comm _ _)
  rw [h1, map_fst_filter_key
    (fun k => (alwaysStatKeys.contains k || opts.«show».contains k) &&
      !(opts.hide.contains k))]
  rfl

lemma mem_allStatsPairs_id (ext : Externals) (stats : StatsData)
    (opts : StatCardOptions) :
    ∀ kv ∈ allStatsPairs ext stats opts, kv.2.id = kv.1 := by
  intro kv h
  fin_cases h <;> rfl

lemma mem_visibleStats_id (ext : Externals) (stats : StatsData)
    (opts : StatCardOptions) :
    ∀ kv ∈ visibleStats ext stats opts, kv.2.id = kv.1 := by
  intro kv h
  apply mem_allStatsPairs_id ext stats opts
  have h1 : kv ∈ buildSTATS ext stats opts :=
    List.mem_of_mem_filter h
  rw [buildSTATS_eq_filter] at h1
  exact List.mem_of_mem_filter h1

lemma enum_map_snd_comp {α β : Type} (l : List α) (f : α → β) :
    l.enum.map (fun x => f x.2) = l.map f := by
  have h : (fun x : Nat × α => f x.2) = f ∘ Prod.snd := rfl
  rw [h, ← List.map_map, List.enum_map_snd]

lemma statItems_map_id (ext : Externals) (stats : StatsData)
    (opts : StatCardOptions) :
    (statItems ext stats opts).map (fun t => t.id) =
      (visibleStats ext stats opts).map (fun kv => kv.2.id) := by
  rw [statItems, List.map_map]
  exact enum_map_snd_comp (visibleStats ext stats opts) (fun kv => kv.2.id)

lemma statItems_map_valueX (ext : Externals) (stats : StatsData)
    (opts : StatCardOptions) :
    (statItems ext stats opts).map (fun t => t.valueX) =
      List.replicate (visibleStats ext stats opts).length
        ((if opts.show_icons then (140 : ℚ) else 120) +
          ((7901 / 100 : ℚ) + (if isLongLocale opts.locale then 50 else 0))) := by
  have h : (statItems ext stats opts).map (fun t => t.valueX) =
      (visibleStats ext stats opts).enum.map (fun _ =>
        (if opts.show_icons then (140 : ℚ) else 120) +
          ((7901 / 100 : ℚ) + (if isLongLocale opts.locale then 50 else 0))) := by
    rw [statItems, List.map_map]
    exact List.map_congr_left (fun a _ => rfl)
  rw [h, List.map_const', List.enum_length]

lemma statItems_length (ext : Externals) (stats : StatsData)
    (opts : StatCardOptions) :
    (statItems ext stats opts).length = (visibleStats ext stats opts).length := by
  rw [statItems, List.length_map, List.enum_length]

/-!
## Render accessor and guard lemmas
-/

lemma renderResult_rows (ext : Externals) (stats : StatsData)
    (opts : StatCardOptions) :
    (renderResult ext stats opts).rows = statItems ext stats opts := rfl

lemma renderResult_height (ext : Externals) (stats : StatsData)
    (opts : StatCardOptions) :
    (renderResult ext stats opts).height =
      computeHeight (statItems ext stats opts).length opts.line_height
        opts.hide_rank := rfl

lemma renderResult_width (ext : Externals) (stats : StatsData)
    (opts : StatCardOptions) :
    (renderResult ext stats opts).width =
      computeWidth opts.card_width
        (computeDefaultCardWidth opts.hide_rank
          (!(statItems ext stats opts).isEmpty)
          (computeIconWidth opts.show_icons (!(statItems ext stats opts).isEmpty)))
        (computeMinCardWidth opts.hide_rank (!(statItems ext stats opts).isEmpty)
          (ext.measureText
            (effectiveTitle ext opts (!(statItems ext stats opts).isEmpty)))
          (computeIconWidth opts.show_icons
            (!(statItems ext stats opts).isEmpty))) := rfl

lemma renderResult_rankX (ext : Externals) (stats : StatsData)
    (opts : StatCardOptions) :
    (renderResult ext stats opts).rankXTranslation =
      (if opts.hide_rank then none
       else some (calculateRankXTranslation (!(statItems ext stats opts).isEmpty)
          (computeIconWidth opts.show_icons (!(statItems ext stats opts).isEmpty))
          ((renderResult ext stats opts).width)
          (computeMinCardWidth opts.hide_rank (!(statItems ext stats opts).isEmpty)
            (ext.measureText
              (effectiveTitle ext opts (!(statItems ext stats opts).isEmpty)))
            (computeIconWidth opts.show_icons
              (!(statItems ext stats opts).isEmpty))))) := rfl

lemma renderResult_accDesc (ext : Externals) (stats : StatsData)
    (opts : StatCardOptions) :
    (renderResult ext stats opts).accDesc =
      String.intercalate ", "
        ((visibleStats ext stats opts).map (accLabel ext opts)) := rfl

lemma renderStatsCard_ok_val (ext : Externals) (stats : StatsData)
    (opts : StatCardOptions) (r : RenderResult)
    (h : renderStatsCard ext stats opts = .ok r) :
    r = renderResult ext stats opts := by
  unfold renderStatsCard at h
  split at h
  · exact absurd h (by simp)
  · exact (Except.ok.inj h).symm

lemma isEmpty_false_of_ne_nil {α : Type} {l : List α} (h : l ≠ []) :
    l.isEmpty = false := by
  cases hb : l.isEmpty
  · rfl
  · exact absurd (List.isEmpty_iff.mp hb) h

lemma renderStatsCard_ok_of_guard (ext : Externals) (stats : StatsData)
    (opts : StatCardOptions)
    (h : statItems ext stats opts ≠ [] ∨ opts.hide_rank = false) :
    renderStatsCard ext stats opts = .ok (renderResult ext stats opts) := by
  unfold renderStatsCard
  have hg : ((statItems ext stats opts).isEmpty && opts.hide_rank) = false := by
    rcases h with h | h
    · rw [isEmpty_false_of_ne_nil h, Bool.false_and]
    · rw [h, Bool.and_false]
  rw [hg]
  simp

/-!
## Width bound lemmas
-/

lemma computeIconWidth_nonneg (a b : Bool) : 0 ≤ computeIconWidth a b := by
  unfold computeIconWidth
  split_ifs <;> norm_num

lemma computeMinCardWidth_ge (a b : Bool) (t i : ℚ) (hi : 0 ≤ i) :
    287 ≤ computeMinCardWidth a b t i := by
  unfold computeMinCardWidth clampValue CARD_MIN_WIDTH RANK_CARD_MIN_WIDTH
    RANK_ONLY_CARD_MIN_WIDTH
  split_ifs
  · have := le_max_left (287 : ℚ) (50 + t * 2)
    linarith
  · linarith
  · linarith

lemma computeWidth_spec (cw : CardWidthOpt) (defW minW : ℚ) (hmin : 0 < minW) :
    (∀ n : ℚ, cw = .num n → minW ≤ n → computeWidth cw defW minW = n) ∧
    (∀ n : ℚ, cw = .num n → n ≠ 0 → n < minW → computeWidth cw defW minW = minW) ∧
    ((cw = .nan ∨ cw = .absent ∨ cw = .num 0) →
      computeWidth cw defW minW = if defW < minW then minW else defW) ∧
    minW ≤ computeWidth cw defW minW := by
  rcases cw with _ | n | _
  · simp only [computeWidth]
    refine ⟨?_, ?_, ?_, ?_⟩
    · intro m h
      exact nomatch h
    · intro m h
      exact nomatch h
    · intro _
      trivial
    · split_ifs with h
      · exact le_refl minW
      · exact le_of_not_lt h
  · simp only [computeWidth]
    refine ⟨?_, ?_, ?_, ?_⟩
    · intro m h hle
      cases h
      have hne : n ≠ 0 := ne_of_gt (lt_of_lt_of_le hmin hle)
      rw [if_pos hne, if_neg (not_lt.mpr hle)]
    · intro m h hne hlt
      cases h
      rw [if_pos hne, if_pos hlt]
    · intro h
      rcases h with h | h | h
      · exact nomatch h
      · exact nomatch h
      · cases h
        rw [if_neg (fun hc : (0 : ℚ) ≠ 0 => hc rfl)]
    · split_ifs with h1 h2 h3
      · exact le_refl minW
      · exact le_of_not_lt h2
      · exact le_refl minW
      · exact le_of_not_lt h3
  · simp only [computeWidth]
    refine ⟨?_, ?_, ?_, ?_⟩
    · intro m h
      exact nomatch h
    · intro m h
      exact nomatch h
    · intro _
      trivial
    · split_ifs with h
      · exact le_refl minW
      · exact le_of_not_lt h

/-!
## Claim theorems
-/

/-- C5: with progress = 100 − percentile and C = 2π×40, the arc offset
function satisfies offsetAt(v) = ((100 − clamp(v,0,100)) / 100) × C, and for
any two percentiles p₁ < p₂ the offset at percentile p₁ (that is, at value
100 − p₁) is at most the offset at percentile p₂, percentiles outside
[0, 100] included.  The constant π is passed as the nonnegative parameter
`pi`. -/
theorem calculateCircleProgress_clamp_monotone (pi v p₁ p₂ : ℚ)
    (hpi : 0 ≤ pi) (hp : p₁ < p₂) :
    calculateCircleProgress pi v = ((100 - clamp0100 v) / 100) * (pi * (40 * 2)) ∧
    calculateCircleProgress pi (100 - p₁) ≤ calculateCircleProgress pi (100 - p₂) := by
  refine ⟨calculateCircleProgress_eq_clamp pi v, ?_⟩
  rw [calculateCircleProgress_eq_clamp, calculateCircleProgress_eq_clamp]
  have hc : clamp0100 (100 - p₂) ≤ clamp0100 (100 - p₁) :=
    clamp0100_mono (by linarith)
  have hC : (0 : ℚ) ≤ pi * (40 * 2) := mul_nonneg hpi (by norm_num)
  apply mul_le_mul_of_nonneg_right _ hC
  rw [div_le_div_iff_of_pos_right (by norm_num : (0:ℚ) < 100)]
  linarith

/-- Witness for C5 at π ≈ 3.14159 and the percentiles −10 and 150 named by
the spec. -/
theorem calculateCircleProgress_clamp_monotone_witness :
    calculateCircleProgress (314159 / 100000) (-10) =
      ((100 - clamp0100 (-10)) / 100) * ((314159 / 100000) * (40 * 2)) ∧
    calculateCircleProgress (314159 / 100000) (100 - (-10)) ≤
      calculateCircleProgress (314159 / 100000) (100 - 150) :=
  calculateCircleProgress_clamp_monotone (314159 / 100000) (-10) (-10) 150
    (by norm_num) (by norm_num)

/-- C10: for every input v, including values below 0 and above 100,
calculateCircleProgress returns a value in [0, 2π×40]; inputs below 0 behave
as 0 and inputs above 100 as 100, and both stroke-dashoffset values emitted
into the keyframe animation block lie within the circumference. -/
theorem calculateCircleProgress_bounded (pi v progress : ℚ) (hpi : 0 ≤ pi) :
    (0 ≤ calculateCircleProgress pi v ∧
      calculateCircleProgress pi v ≤ pi * (40 * 2)) ∧
    (v < 0 → calculateCircleProgress pi v = calculateCircleProgress pi 0) ∧
    (100 < v → calculateCircleProgress pi v = calculateCircleProgress pi 100) ∧
    (0 ≤ (getProgressAnimationOffsets pi progress).1 ∧
      (getProgressAnimationOffsets pi progress).1 ≤ pi * (40 * 2)) ∧
    (0 ≤ (getProgressAnimationOffsets pi progress).2 ∧
      (getProgressAnimationOffsets pi progress).2 ≤ pi * (40 * 2)) := by
  refine ⟨calculateCircleProgress_range pi v hpi, ?_, ?_,
    calculateCircleProgress_range pi 0 hpi,
    calculateCircleProgress_range pi progress hpi⟩
  · intro hv
    have h1 : clamp0100 v = 0 := by
      unfold clamp0100
      rw [min_eq_left (by linarith), max_eq_left (by linarith)]
    have h2 : clamp0100 (0 : ℚ) = 0 := by
      unfold clamp0100
      norm_num
    rw [calculateCircleProgress_eq_clamp, calculateCircleProgress_eq_clamp, h1, h2]
  · intro hv
    have h1 : clamp0100 v = 100 := by
      unfold clamp0100
      rw [min_eq_right (by linarith), max_eq_right (by norm_num)]
    have h2 : clamp0100 (100 : ℚ) = 100 := by
      unfold clamp0100
      norm_num
    rw [calculateCircleProgress_eq_clamp, calculateCircleProgress_eq_clamp, h1, h2]

/-- Witness for C10 at π ≈ 3.14159, v = 150 and progress = 110. -/
theorem calculateCircleProgress_bounded_witness :
    (0 ≤ calculateCircleProgress (314159 / 100000) 150 ∧
      calculateCircleProgress (314159 / 100000) 150 ≤
        (314159 / 100000) * (40 * 2)) ∧
    ((150 : ℚ) < 0 → calculateCircleProgress (314159 / 100000) 150 =
      calculateCircleProgress (314159 / 100000) 0) ∧
    ((100 : ℚ) < 150 → calculateCircleProgress (314159 / 100000) 150 =
      calculateCircleProgress (314159 / 100000) 100) ∧
    (0 ≤ (getProgressAnimationOffsets (314159 / 100000) 110).1 ∧
      (getProgressAnimationOffsets (314159 / 100000) 110).1 ≤
        (314159 / 100000) * (40 * 2)) ∧
    (0 ≤ (getProgressAnimationOffsets (314159 / 100000) 110).2 ∧
      (getProgressAnimationOffsets (314159 / 100000) 110).2 ≤
        (314159 / 100000) * (40 * 2)) :=
  calculateCircleProgress_bounded (314159 / 100000) 150 110 (by norm_num)

/-- C1: renderStatsCard fails with the configuration error exactly when the
set of statistic rows surviving the show/hide filters is empty and
`hide_rank` is true; every other combination of recognized options renders
successfully. -/
theorem renderStatsCard_error_iff (ext : Externals) (stats : StatsData)
    (opts : StatCardOptions) :
    (renderStatsCard ext stats opts = .error configurationError ↔
      (statItems ext stats opts = [] ∧ opts.hide_rank = true)) ∧
    ((statItems ext stats opts ≠ [] ∨ opts.hide_rank = false) →
      renderStatsCard ext stats opts = .ok (renderResult ext stats opts)) := by
  refine ⟨?_, renderStatsCard_ok_of_guard ext stats opts⟩
  unfold renderStatsCard
  cases h1 : (statItems ext stats opts).isEmpty <;> cases h2 : opts.hide_rank <;>
    simp_all [List.isEmpty_iff]

/-- Witness for C1: hiding every canonical key with `hide_rank` raises the
configuration error; the same options with the rank shown succeed. -/
theorem renderStatsCard_error_iff_witness :
    renderStatsCard ext0 stats0 optsAllHide = .error configurationError ∧
    renderStatsCard ext0 stats0 optsAllHideNoRank =
      .ok (renderResult ext0 stats0 optsAllHideNoRank) :=
  ⟨(renderStatsCard_error_iff ext0 stats0 optsAllHide).1.mpr ⟨by decide, rfl⟩,
   (renderStatsCard_error_iff ext0 stats0 optsAllHideNoRank).2 (Or.inr rfl)⟩

/-- C3: the card height equals max(45 + (n + 1) × L, m) where n is the row
count, L the line height, and m is 0 when the rank is hidden, 150 when the
rank is shown with rows, and 180 when the rank is shown without rows. -/
theorem renderStatsCard_height_formula (ext : Externals) (stats : StatsData)
    (opts : StatCardOptions) (r : RenderResult)
    (hok : renderStatsCard ext stats opts = .ok r) :
    r.height = max (45 + ((r.rows.length : ℚ) + 1) * (opts.line_height : ℚ))
      (if opts.hide_rank then 0 else if r.rows.length ≠ 0 then 150 else 180) := by
  have hr := renderStatsCard_ok_val ext stats opts r hok
  subst hr
  rfl

/-- Witness for C3: line height 25 with 3 rows and rank shown gives height
150, and with 6 rows gives 220. -/
theorem renderStatsCard_height_formula_witness :
    (renderResult ext0 stats0 optsH3).height = 150 ∧
    (renderResult ext0 stats0 optsH6).height = 220 := by
  constructor
  · have hlen : (renderResult ext0 stats0 optsH3).rows.length = 3 := by decide
    rw [renderStatsCard_height_formula ext0 stats0 optsH3
      (renderResult ext0 stats0 optsH3) rfl, hlen]
    norm_num [optsH3, max_def]
  · have hlen : (renderResult ext0 stats0 optsH6).rows.length = 6 := by decide
    rw [renderStatsCard_height_formula ext0 stats0 optsH6
      (renderResult ext0 stats0 optsH6) rfl, hlen]
    norm_num [optsH6, max_def]

/-- C4: the rendered row sequence is exactly the canonical ordered key list
restricted to keys that are always included or appear in `show`, and that do
not appear in `hide`, in canonical order. -/
theorem renderStatsCard_row_order (ext : Externals) (stats : StatsData)
    (opts : StatCardOptions) (r : RenderResult)
    (hok : renderStatsCard ext stats opts = .ok r) :
    r.rows.map (fun t => t.id) =
      canonicalStatKeys.filter
        (fun k => (alwaysStatKeys.contains k || opts.«show».contains k) &&
          !(opts.hide.contains k)) := by
  have hr := renderStatsCard_ok_val ext stats opts r hok
  subst hr
  rw [renderResult_rows, statItems_map_id]
  have h2 : (visibleStats ext stats opts).map (fun kv => kv.2.id) =
      (visibleStats ext stats opts).map Prod.fst :=
    List.map_congr_left (fun kv hkv => mem_visibleStats_id ext stats opts kv hkv)
  rw [h2, visibleStats_map_fst]

/-- Witness for C4: with `show = [reviews]` and `hide = [commits]` the row
ids are stars, prs, reviews, issues, contribs, in that order. -/
theorem renderStatsCard_row_order_witness :
    (renderResult ext0 stats0 optsC4).rows.map (fun t => t.id) =
      ["stars", "prs", "reviews", "issues", "contribs"] := by
  rw [renderStatsCard_row_order ext0 stats0 optsC4
    (renderResult ext0 stats0 optsC4) rfl]
  decide

lemma renderResult_width_rank_rows (ext : Externals) (stats : StatsData)
    (opts : StatCardOptions) (hrank : opts.hide_rank = false)
    (hrows : statItems ext stats opts ≠ []) :
    (renderResult ext stats opts).width =
      computeWidth opts.card_width
        (450 + computeIconWidth opts.show_icons true)
        (420 + computeIconWidth opts.show_icons true) := by
  rw [renderResult_width, isEmpty_false_of_ne_nil hrows, hrank]
  simp [computeMinCardWidth, computeDefaultCardWidth, RANK_CARD_MIN_WIDTH,
    RANK_CARD_DEFAULT_WIDTH, add_comm]

/-- C2 (amended): if card_width is numeric and at least the computed minimum
the final width is card_width verbatim; if card_width is numeric, nonzero and
below the minimum the final width is the minimum; if card_width is
non-numeric, absent, or the (falsy) number 0, the final width is the mode
default raised to the minimum when the default lies below it; and the final
width is never below the computed minimum. -/
theorem renderStatsCard_width_policy (ext : Externals) (stats : StatsData)
    (opts : StatCardOptions) (r : RenderResult)
    (hok : renderStatsCard ext stats opts = .ok r) :
    let hasRows := !(statItems ext stats opts).isEmpty
    let iw := computeIconWidth opts.show_icons hasRows
    let minW := computeMinCardWidth opts.hide_rank hasRows
      (ext.measureText (effectiveTitle ext opts hasRows)) iw
    let defW := computeDefaultCardWidth opts.hide_rank hasRows iw
    (∀ n : ℚ, opts.card_width = .num n → minW ≤ n → r.width = n) ∧
    (∀ n : ℚ, opts.card_width = .num n → n ≠ 0 → n < minW → r.width = minW) ∧
    ((opts.card_width = .nan ∨ opts.card_width = .absent ∨
        opts.card_width = .num 0) →
      r.width = if defW < minW then minW else defW) ∧
    minW ≤ r.width := by
  intro hasRows iw minW defW
  have hr := renderStatsCard_ok_val ext stats opts r hok
  subst hr
  have hw : (renderResult ext stats opts).width =
      computeWidth opts.card_width defW minW := rfl
  have hmin : (0 : ℚ) < minW :=
    lt_of_lt_of_le (by norm_num)
      (computeMinCardWidth_ge opts.hide_rank hasRows
        (ext.measureText (effectiveTitle ext opts hasRows)) iw
        (computeIconWidth_nonneg opts.show_icons hasRows))
  rw [hw]
  exact computeWidth_spec opts.card_width defW minW hmin

/-- Witness for C2: a requested width of 500 in rank mode (minimum 420) is
used verbatim. -/
theorem renderStatsCard_width_policy_witness :
    (renderResult ext0 stats0 optsW500).width = 500 := by
  have h := renderStatsCard_width_policy ext0 stats0 optsW500
    (renderResult ext0 stats0 optsW500) rfl
  apply h.1 500 rfl
  have he : (statItems ext0 stats0 optsW500).isEmpty = false := by decide
  rw [he]
  norm_num [optsW500, computeMinCardWidth, computeIconWidth, RANK_CARD_MIN_WIDTH]

/-- Counterexample to C2 as literally stated.  First input: `card_width = 0`
is numeric and below the rank-mode minimum 420, yet the final width is the
default 450, not the minimum.  Second input: a non-numeric `card_width` in
rank-hidden mode with a wide measured title gives final width 450 (the
minimum), not the mode default 287. -/
theorem renderStatsCard_width_counterexample :
    (optsZero.card_width = .num 0 ∧
     (0 : ℚ) < 420 ∧
     renderStatsCard ext0 stats0 optsZero =
       .ok (renderResult ext0 stats0 optsZero) ∧
     computeMinCardWidth optsZero.hide_rank
       (!(statItems ext0 stats0 optsZero).isEmpty)
       (ext0.measureText (effectiveTitle ext0 optsZero
         (!(statItems ext0 stats0 optsZero).isEmpty)))
       (computeIconWidth optsZero.show_icons
         (!(statItems ext0 stats0 optsZero).isEmpty)) = 420 ∧
     (renderResult ext0 stats0 optsZero).width = 450) ∧
    (optsNaN.card_width = .nan ∧
     renderStatsCard extWide stats0 optsNaN =
       .ok (renderResult extWide stats0 optsNaN) ∧
     computeDefaultCardWidth optsNaN.hide_rank
       (!(statItems extWide stats0 optsNaN).isEmpty)
       (computeIconWidth optsNaN.show_icons
         (!(statItems extWide stats0 optsNaN).isEmpty)) = 287 ∧
     (renderResult extWide stats0 optsNaN).width = 450) := by
  have he : (statItems ext0 stats0 optsZero).isEmpty = false := by decide
  have he2 : (statItems extWide stats0 optsNaN).isEmpty = false := by decide
  refine ⟨⟨rfl, by norm_num, rfl, ?_, ?_⟩, ⟨rfl, rfl, ?_, ?_⟩⟩
  · rw [he]
    norm_num [optsZero, computeMinCardWidth, computeIconWidth,
      RANK_CARD_MIN_WIDTH]
  · rw [renderResult_width_rank_rows ext0 stats0 optsZero rfl
      (fun hc => by rw [hc] at he; exact absurd he (by norm_num))]
    norm_num [optsZero, computeWidth, computeIconWidth]
  · rw [he2]
    norm_num [optsNaN, computeDefaultCardWidth, computeIconWidth,
      CARD_DEFAULT_WIDTH]
  · rw [renderResult_width, he2]
    norm_num [optsNaN, extWide, ext0, computeWidth, computeMinCardWidth,
      computeDefaultCardWidth, computeIconWidth, clampValue, CARD_MIN_WIDTH,
      CARD_DEFAULT_WIDTH, max_def]

/-- C6: the rank indicator translation is width/2 + 10 in rank-only mode;
with rows it is minXTranslation + (width − minCardWidth)/2 for final widths
up to 450 and minXTranslation + (450 − minCardWidth)/2 + (width − 450)
beyond, with minXTranslation = 420 + iconWidth − 70. -/
theorem renderStatsCard_rank_translation (ext : Externals) (stats : StatsData)
    (opts : StatCardOptions) (r : RenderResult)
    (hok : renderStatsCard ext stats opts = .ok r)
    (hrank : opts.hide_rank = false) :
    let hasRows := !(statItems ext stats opts).isEmpty
    let iw := computeIconWidth opts.show_icons hasRows
    let minW := computeMinCardWidth opts.hide_rank hasRows
      (ext.measureText (effectiveTitle ext opts hasRows)) iw
    r.rankXTranslation = some
      (if (statItems ext stats opts).length ≠ 0 then
        (if (450 : ℚ) < r.width then
          (420 + iw - 70) + (450 - minW) / 2 + (r.width - 450)
         else (420 + iw - 70) + (r.width - minW) / 2)
       else r.width / 2 + 10) := by
  have hr := renderStatsCard_ok_val ext stats opts r hok
  subst hr
  dsimp only
  rw [renderResult_rankX, hrank]
  rw [if_neg (fun hc : false = true => absurd hc (by norm_num))]
  congr 1
  unfold calculateRankXTranslation
  by_cases hne : statItems ext stats opts = []
  · rw [hne]
    norm_num
    ring
  · have hb0 := isEmpty_false_of_ne_nil hne
    rw [hb0]
    simp only [Bool.not_false]
    have hlen : (statItems ext stats opts).length ≠ 0 :=
      fun hc => hne (List.length_eq_zero.mp hc)
    rw [if_pos trivial, if_pos hlen]
    simp only [RANK_CARD_MIN_WIDTH, RANK_CARD_DEFAULT_WIDTH]
    split_ifs with hgt
    · ring
    · ring

/-- Witness for C6: with the default options the final width is 450, the
minimum 420, and the translation is 350 + 15 = 365. -/
theorem renderStatsCard_rank_translation_witness :
    (renderResult ext0 stats0 opts0).rankXTranslation = some 365 := by
  rw [renderStatsCard_rank_translation ext0 stats0 opts0
    (renderResult ext0 stats0 opts0) rfl rfl]
  have he : (statItems ext0 stats0 opts0).isEmpty = false := by decide
  have hlen : (statItems ext0 stats0 opts0).length = 5 := by decide
  have hw : (renderResult ext0 stats0 opts0).width = 450 := by
    rw [renderResult_width_rank_rows ext0 stats0 opts0 rfl
      (fun hc => by rw [hc] at he; exact absurd he (by norm_num))]
    norm_num [opts0, computeWidth, computeIconWidth]
  rw [hw, hlen, he]
  norm_num [opts0, computeMinCardWidth, computeIconWidth, RANK_CARD_MIN_WIDTH]

/-- C7: with identical data and options differing only in the locale, one in
the long-label allow-list and the other not, every row's value x-position in
the allow-list render exceeds the other render's by exactly 50, and the base
offset is the same fixed constant (showIcons base + 79.01) for every row. -/
theorem renderStatsCard_locale_shift (ext : Externals) (stats : StatsData)
    (opts : StatCardOptions) (l1 l2 : String)
    (h1 : longLocales.contains l1 = true)
    (h2 : longLocales.contains l2 = false)
    (r1 r2 : RenderResult)
    (hr1 : renderStatsCard ext stats { opts with locale := some l1 } = .ok r1)
    (hr2 : renderStatsCard ext stats { opts with locale := some l2 } = .ok r2) :
    r1.rows.map (fun t => t.valueX) = r2.rows.map (fun t => t.valueX + 50) ∧
    r2.rows.map (fun t => t.valueX) =
      List.replicate r2.rows.length
        ((if opts.show_icons then (140 : ℚ) else 120) + 7901 / 100) := by
  have e1 := renderStatsCard_ok_val _ _ _ _ hr1
  have e2 := renderStatsCard_ok_val _ _ _ _ hr2
  subst e1
  subst e2
  have hkeys : (visibleStats ext stats { opts with locale := some l1 }).map
        Prod.fst =
      (visibleStats ext stats { opts with locale := some l2 }).map Prod.fst := by
    rw [visibleStats_map_fst, visibleStats_map_fst]
  have hlen : (visibleStats ext stats { opts with locale := some l1 }).length =
      (visibleStats ext stats { opts with locale := some l2 }).length := by
    have hc := congrArg List.length hkeys
    rwa [List.length_map, List.length_map] at hc
  have hL1 : isLongLocale ({ opts with locale := some l1 } :
      StatCardOptions).locale = true := by
    simpa [isLongLocale] using h1
  have hL2 : isLongLocale ({ opts with locale := some l2 } :
      StatCardOptions).locale = false := by
    simpa [isLongLocale] using h2
  constructor
  · rw [renderResult_rows, renderResult_rows, statItems_map_valueX]
    have hmm : (statItems ext stats { opts with locale := some l2 }).map
          (fun t => t.valueX + 50) =
        ((statItems ext stats { opts with locale := some l2 }).map
          (fun t => t.valueX)).map (fun x => x + 50) := by
      rw [List.map_map]
      rfl
    rw [hmm, statItems_map_valueX, List.map_replicate, hL1, hL2, hlen]
    norm_num
    right
    ring
  · rw [renderResult_rows, statItems_map_valueX, hL2, statItems_length]
    norm_num

/-- Witness for C7 at the locales fr (long) and en (not long) over the
default options. -/
theorem renderStatsCard_locale_shift_witness :
    (renderResult ext0 stats0 optsFr).rows.map (fun t => t.valueX) =
      (renderResult ext0 stats0 optsEn).rows.map (fun t => t.valueX + 50) ∧
    (renderResult ext0 stats0 optsEn).rows.map (fun t => t.valueX) =
      List.replicate (renderResult ext0 stats0 optsEn).rows.length
        ((if opts0.show_icons then (140 : ℚ) else 120) + 7901 / 100) :=
  renderStatsCard_locale_shift ext0 stats0 opts0 "fr" "en" (by decide)
    (by decide) (renderResult ext0 stats0 optsFr)
    (renderResult ext0 stats0 optsEn) rfl rfl

/-- C8: the accessibility description joins the visible rows' label-value
pairs in exactly the visual row order, and the commits entry uses the
year-qualified phrasing exactly when include_all_commits is false. -/
theorem renderStatsCard_acc_desc (ext : Externals) (stats : StatsData)
    (opts : StatCardOptions) (r : RenderResult)
    (hok : renderStatsCard ext stats opts = .ok r) :
    r.accDesc = String.intercalate ", "
      ((visibleStats ext stats opts).map (accLabel ext opts)) ∧
    (visibleStats ext stats opts).map Prod.fst = r.rows.map (fun t => t.id) ∧
    (∀ kv ∈ visibleStats ext stats opts, kv.1 = "commits" →
      accLabel ext opts kv =
        ext.tr opts.locale "statcard.commits" ++ " " ++
          (if opts.include_all_commits then ""
           else "in " ++ toString ext.currentYear) ++ " : " ++ kv.2.value) := by
  have hr := renderStatsCard_ok_val ext stats opts r hok
  subst hr
  refine ⟨rfl, ?_, ?_⟩
  · rw [renderResult_rows, statItems_map_id]
    exact (List.map_congr_left
      (fun kv hkv => mem_visibleStats_id ext stats opts kv hkv)).symm
  · intro kv _ hk
    unfold accLabel
    rw [if_pos hk]

/-- Witness for C8: the default options over the concrete inputs produce the
description in visual order with the year-qualified commits entry. -/
theorem renderStatsCard_acc_desc_witness :
    (renderResult ext0 stats0 opts0).accDesc =
      "statcard.totalstars: 100, statcard.commits in 2024 : 200, statcard.prs: 40, statcard.issues: 30, statcard.contribs: 7" := by
  rw [(renderStatsCard_acc_desc ext0 stats0 opts0
    (renderResult ext0 stats0 opts0) rfl).1]
  decide

/-- C9: a supplied card_width of 0 is treated as absent (the render is
identical to one with no card_width), and in rank-shown mode with rows,
where the default 450 + iconWidth exceeds the minimum 420 + iconWidth,
card_width = 0 gives the default while card_width = 1 gives the minimum, so
the two final widths differ. -/
theorem renderStatsCard_zero_width (ext : Externals) (stats : StatsData)
    (opts : StatCardOptions) (hrank : opts.hide_rank = false)
    (hrows : statItems ext stats opts ≠ []) :
    renderStatsCard ext stats { opts with card_width := .num 0 } =
      renderStatsCard ext stats { opts with card_width := .absent } ∧
    renderStatsCard ext stats { opts with card_width := .num 0 } =
      .ok (renderResult ext stats { opts with card_width := .num 0 }) ∧
    renderStatsCard ext stats { opts with card_width := .num 1 } =
      .ok (renderResult ext stats { opts with card_width := .num 1 }) ∧
    (renderResult ext stats { opts with card_width := .num 0 }).width =
      450 + computeIconWidth opts.show_icons true ∧
    (renderResult ext stats { opts with card_width := .num 1 }).width =
      420 + computeIconWidth opts.show_icons true ∧
    (renderResult ext stats { opts with card_width := .num 0 }).width ≠
      (renderResult ext stats { opts with card_width := .num 1 }).width := by
  have hiw : (0 : ℚ) ≤ computeIconWidth opts.show_icons true :=
    computeIconWidth_nonneg opts.show_icons true
  have hw0 : (renderResult ext stats { opts with card_width := .num 0 }).width =
      450 + computeIconWidth opts.show_icons true := by
    rw [renderResult_width_rank_rows ext stats
      { opts with card_width := .num 0 } hrank hrows]
    show computeWidth (.num 0) _ _ = _
    simp only [computeWidth]
    rw [if_neg (fun hc : (0 : ℚ) ≠ 0 => hc rfl),
      if_neg (not_lt.mpr (by linarith))]
  have hw1 : (renderResult ext stats { opts with card_width := .num 1 }).width =
      420 + computeIconWidth opts.show_icons true := by
    rw [renderResult_width_rank_rows ext stats
      { opts with card_width := .num 1 } hrank hrows]
    show computeWidth (.num 1) _ _ = _
    simp only [computeWidth]
    rw [if_pos (by norm_num : (1 : ℚ) ≠ 0), if_pos (by linarith)]
  refine ⟨?_, renderStatsCard_ok_of_guard ext stats _ (Or.inr hrank),
    renderStatsCard_ok_of_guard ext stats _ (Or.inr hrank), hw0, hw1, ?_⟩
  · rw [renderStatsCard_ok_of_guard ext stats
      { opts with card_width := .num 0 } (Or.inr hrank),
      renderStatsCard_ok_of_guard ext stats
      { opts with card_width := .absent } (Or.inr hrank)]
    have hcw : renderResult ext stats { opts with card_width := .num 0 } =
        renderResult ext stats { opts with card_width := .absent } := by
      rfl
    rw [hcw]
  · rw [hw0, hw1]
    intro hc
    have hc450 : (450 : ℚ) = 420 := by linarith
    norm_num at hc450

/-- Witness for C9 at the concrete inputs with the default options. -/
theorem renderStatsCard_zero_width_witness :
    renderStatsCard ext0 stats0 { opts0 with card_width := .num 0 } =
      renderStatsCard ext0 stats0 { opts0 with card_width := .absent } ∧
    (renderResult ext0 stats0 { opts0 with card_width := .num 0 }).width ≠
      (renderResult ext0 stats0 { opts0 with card_width := .num 1 }).width := by
  have he : (statItems ext0 stats0 opts0).isEmpty = false := by decide
  have h := renderStatsCard_zero_width ext0 stats0 opts0 rfl
    (fun hc => by rw [hc] at he; exact absurd he (by norm_num))
  exact ⟨h.1, h.2.2.2.2.2⟩

end StatsCard
